import Mathlib

/-!
Shallow embedding of `install_Krach2025-poremaps.py`, the single-file
installation script of the repository, together with proofs about the
claims of its specification.

The script is a linear sequence of OS side effects (directory changes,
downloads, archive extraction, shell commands, prints, appends to a
shell startup file).  We embed it as pure functions from an explicit
environment oracle — which records the answers the operating system
would give (filesystem queries, whether the guarded network/extraction
region raises, exit statuses of shell commands) — to an outcome paired
with the list of effects the run performs, in order.
-/

set_option autoImplicit false

namespace Krach2025

/-- One observable OS side effect of the script, in the order performed.
`osSystem cmd st` records an `os.system(cmd)` invocation that returned
exit status `st` (Python's `os.system` returns the status; it does not
raise on a nonzero status). -/
inductive Effect where
  | chdir (p : String)
  | makedirs (p : String)
  | download (url : String)
  | extractTar
  | osSystem (cmd : String) (status : Int)
  | printMsg (m : String)
  deriving DecidableEq, Repr

/-- Whether an effect touches the filesystem or the network (everything
except writing to standard output). -/
def Effect.isFsOrNetwork : Effect → Bool
  | Effect.chdir _ => true
  | Effect.makedirs _ => true
  | Effect.download _ => true
  | Effect.extractTar => true
  | Effect.osSystem _ _ => true
  | Effect.printMsg _ => false

/-- The filesystem predicates the script consults (`os.path.isfile` and
`os.access(_, os.X_OK)`). -/
structure FS where
  isFile : String → Bool
  isExecutable : String → Bool

/-- Environment oracle: the answers the OS gives during one run.
`tryFault = some (e, effs)` means the try-guarded acquisition region of
`run_ompi_install` raises an exception whose message is `e` after having
performed the effects `effs`; `cloneRaise = some e` means the
`os.system('git clone …')` invocation itself raises (it normally returns
a status instead); `sysStatus` gives the exit status each shell command
returns. -/
structure Env where
  fs : FS
  tryFault : Option (String × List Effect)
  cloneRaise : Option String
  sysStatus : String → Int

/-- Outcome of running a piece of the script: normal return, process
termination via `sys.exit msg` (exit status 1, `msg` on stderr), or an
uncaught exception propagating out. -/
inductive Outcome (α : Type) where
  | ok (a : α)
  | exited (msg : String)
  | raised (e : String)
  deriving DecidableEq, Repr

/-- Fixed system fallback path of the OpenMPI C++ compiler wrapper. -/
def sysCompiler : String := "/usr/bin/mpiCC"

/-- Fixed system fallback path of the OpenMPI launcher. -/
def sysLauncher : String := "/usr/bin/mpirun"

/-- The advisory text printed whenever the script falls back to the
system OpenMPI (source lines 142 and 147). -/
def fallbackNote : String :=
  "### Using the system's OpenMPI version.\n### It is advised to install your own version.\n### See https://www.open-mpi.org/software/ompi/v5.0/ for available versions."

/-- Source line 103: the download URL built from `ompi_version[0]` and
`ompi_version[2]` by the f-string
`f"https://download.open-mpi.org/release/open-mpi/v{ompi_version[0]}.{ompi_version[2]}/openmpi-{ompi_version}.tar.gz"`.
Python raises `IndexError` when the string is too short for either
index, which we render as `none`; the f-string itself sits before the
`try` block, so this error is not caught by the acquisition handler. -/
def buildOmpiUrl (version : String) : Option String :=
  match version.data.get? 0, version.data.get? 2 with
  | some c0, some c2 =>
      some ("https://download.open-mpi.org/release/open-mpi/v" ++ String.singleton c0 ++ "."
        ++ String.singleton c2 ++ "/openmpi-" ++ version ++ ".tar.gz")
  | _, _ => none

/-- Source lines 53–152, `run_ompi_install(_GET_OMPI, _ompi_src, ompi_version)`.
If `_GET_OMPI` it changes into `_ompi_src`, builds the download URL
(outside the `try`), then inside the `try` downloads and extracts the
tarball, computes the source-build paths under
`<_ompi_src>/openmpi-<version>/build/bin/`, enters the source tree,
creates and enters `build`, and shells out to `configure` and
`make -j4; make install` (redirected to logs unless `VERBOSE`); any
exception in the `try` region is caught and the fixed system paths are
substituted.  If not `_GET_OMPI` it prints the advisory note and returns
the fixed system paths.  Either way the requested version string is
returned as the third component.  `_ompi_src` is assumed absolute, as it
is at the script's only call site, so `os.path.join(os.getcwd(), …)`
after `os.chdir(_ompi_src)` is path concatenation under `_ompi_src`. -/
def run_ompi_install (env : Env) («_GET_OMPI» : Bool) («_ompi_src» : String)
    (ompi_version : String) (VERBOSE : Bool) :
    Outcome (String × String × String) × List Effect :=
  if «_GET_OMPI» then
    let pre : List Effect := [Effect.chdir «_ompi_src»]
    match buildOmpiUrl ompi_version with
    | none => (Outcome.raised "IndexError: string index out of range", pre)
    | some url =>
      match env.tryFault with
      | some (e, partialEffs) =>
          (Outcome.ok (sysCompiler, sysLauncher, ompi_version),
            pre ++ partialEffs ++ [Effect.printMsg ("### ERROR: " ++ e ++ "\n" ++ fallbackNote)])
      | none =>
          let ompi_compiler := «_ompi_src» ++ "/openmpi-" ++ ompi_version ++ "/build/bin/mpiCC"
          let ompi_exec := «_ompi_src» ++ "/openmpi-" ++ ompi_version ++ "/build/bin/mpirun"
          let cfgCmd := if VERBOSE then "../configure --prefix=$PWD"
            else "../configure --prefix=$PWD > ompi_config.log"
          let makeCmd := if VERBOSE then "make -j4; make install"
            else "make -j4 > ompi_build.log; make install > ompi_install.log"
          (Outcome.ok (ompi_compiler, ompi_exec, ompi_version),
            pre ++
            [Effect.printMsg ("### DOWNLOADING OpenMPI " ++ ompi_version ++ " ###"),
             Effect.download url,
             Effect.printMsg "### EXTRACTING TARBALL ###",
             Effect.extractTar,
             Effect.chdir ("openmpi-" ++ ompi_version),
             Effect.makedirs "build",
             Effect.chdir "build",
             Effect.printMsg "### CONFIGURING OpenMPI ###",
             Effect.osSystem cfgCmd (env.sysStatus cfgCmd),
             Effect.printMsg "### BUILDING & INSTALLING OpenMPI ###",
             Effect.osSystem makeCmd (env.sysStatus makeCmd)])
  else
    (Outcome.ok (sysCompiler, sysLauncher, ompi_version),
      [Effect.printMsg fallbackNote])

/-- Result of `_ompi_sanity`: either `sys.exit msg` (process termination
with exit status 1 and `msg` on standard error) or a normal return. -/
inductive SanityResult where
  | exitWith (msg : String)
  | ok
  deriving DecidableEq, Repr

/-- Source lines 155–185, `_ompi_sanity(_exec)`.  If the path is not an
existing file, a `FileNotFoundError` with message `f"{_exec} does not exist"`
is raised and immediately caught, and the process exits via
`sys.exit(f"ERROR: {_exec} does not exist\n error {e}")`; otherwise if
the path lacks execute permission, a `PermissionError` is raised, caught,
and the process exits with the corresponding message; otherwise the
function returns normally. -/
def «_ompi_sanity» (fs : FS) («_exec» : String) : SanityResult :=
  if fs.isFile «_exec» = false then
    SanityResult.exitWith
      ("ERROR: " ++ «_exec» ++ " does not exist\n error " ++ «_exec» ++ " does not exist")
  else if fs.isExecutable «_exec» = false then
    SanityResult.exitWith
      ("ERROR: " ++ «_exec» ++ " is not executable\n error " ++ «_exec» ++ " is not executable")
  else SanityResult.ok

/-- The shell command of source lines 195 and 243: `git clone <url>`. -/
def cloneCmd (url : String) : String := "git clone " ++ url

/-- The shell command of source lines 201 and 251:
`sed -i 's|CLINKER=.*|CLINKER=<compiler>|' makefile`. -/
def sedCmd (compiler : String) : String :=
  "sed -i 's|CLINKER=.*|CLINKER=" ++ compiler ++ "|' makefile"

/-- Source lines 187–202: the FIRST textual definition of
`run_pormaps_install(_ompi_compiler, _ompi_exec, _poremaps_src, poremaps_git_url)`.
It validates both toolchain paths with `_ompi_sanity`, changes into
`_poremaps_src`, runs `git clone` inside a `try` whose handler exits with
`f'ERROR: cloning {poremaps_git_url} failed.\n error-> {e}'`, changes
into `poremaps/src`, patches the makefile with `sed`, and runs `make`.
This definition is immediately shadowed by the second one below. -/
def run_pormaps_install_v1 (env : Env)
    («_ompi_compiler» «_ompi_exec» «_poremaps_src» poremaps_git_url : String) :
    Outcome Unit × List Effect :=
  match «_ompi_sanity» env.fs «_ompi_compiler» with
  | SanityResult.exitWith m => (Outcome.exited m, [])
  | SanityResult.ok =>
    match «_ompi_sanity» env.fs «_ompi_exec» with
    | SanityResult.exitWith m => (Outcome.exited m, [])
    | SanityResult.ok =>
      match env.cloneRaise with
      | some e =>
          (Outcome.exited ("ERROR: cloning " ++ poremaps_git_url ++ " failed.\n error-> " ++ e),
            [Effect.chdir «_poremaps_src»])
      | none =>
          (Outcome.ok (),
            [Effect.chdir «_poremaps_src»,
             Effect.osSystem (cloneCmd poremaps_git_url) (env.sysStatus (cloneCmd poremaps_git_url)),
             Effect.chdir "poremaps/src",
             Effect.osSystem (sedCmd «_ompi_compiler») (env.sysStatus (sedCmd «_ompi_compiler»)),
             Effect.osSystem "make" (env.sysStatus "make")])

/-- Source lines 205–254: the SECOND textual definition of
`run_pormaps_install`, the one actually bound at the call site because it
shadows the first.  Identical steps to the first definition; the only
textual difference is the clone-failure exit message, here
`f'ERROR: Cloning {poremaps_git_url} failed.\nError: {e}'`. -/
def run_pormaps_install (env : Env)
    («_ompi_compiler» «_ompi_exec» «_poremaps_src» poremaps_git_url : String) :
    Outcome Unit × List Effect :=
  match «_ompi_sanity» env.fs «_ompi_compiler» with
  | SanityResult.exitWith m => (Outcome.exited m, [])
  | SanityResult.ok =>
    match «_ompi_sanity» env.fs «_ompi_exec» with
    | SanityResult.exitWith m => (Outcome.exited m, [])
    | SanityResult.ok =>
      match env.cloneRaise with
      | some e =>
          (Outcome.exited ("ERROR: Cloning " ++ poremaps_git_url ++ " failed.\nError: " ++ e),
            [Effect.chdir «_poremaps_src»])
      | none =>
          (Outcome.ok (),
            [Effect.chdir «_poremaps_src»,
             Effect.osSystem (cloneCmd poremaps_git_url) (env.sysStatus (cloneCmd poremaps_git_url)),
             Effect.chdir "poremaps/src",
             Effect.osSystem (sedCmd «_ompi_compiler») (env.sysStatus (sedCmd «_ompi_compiler»)),
             Effect.osSystem "make" (env.sysStatus "make")])

/-- The line appended unconditionally to `/poremaps/.bashrc`
(source line 265). -/
def activationLine : String := "source /poremaps/venv/poremaps/bin/activate"

/-- The PATH line appended to `/poremaps/.bashrc` (source line 271). -/
def pathLine (ompi_src ompi_version : String) : String :=
  "export PATH=" ++ ompi_src ++ "/openmpi-" ++ ompi_version ++ "/build/bin:$PATH"

/-- The LD_LIBRARY_PATH line appended to `/poremaps/.bashrc`
(source line 273). -/
def ldLine (ompi_src ompi_version : String) : String :=
  "export LD_LIBRARY_PATH=" ++ ompi_src ++ "/openmpi-" ++ ompi_version ++ "/build/lib:$LD_LIBRARY_PATH"

/-- Source lines 265–273, the environment-registration step: the list of
lines the script appends (via `echo '…' >> /poremaps/.bashrc`) to the
shell startup file, in order.  The activation line is appended
unconditionally; the two export lines are appended exactly when
`GET_OPENMPI and ompi_exec != '/usr/bin/mpirun'`. -/
def registerEnvironment (GET_OPENMPI : Bool) (ompi_exec ompi_src ompi_version : String) :
    List String :=
  [activationLine] ++
    (if GET_OPENMPI && ompi_exec != sysLauncher then
      [pathLine ompi_src ompi_version, ldLine ompi_src ompi_version]
    else [])

/-- The repository URL cloned by the script (source line 43). -/
def POREMAPS_GIT_URL : String := "https://git.rwth-aachen.de/david.krach/poremaps.git"

/-- Source lines 38–50 and 257–273: the module top level.  It creates
the two working directories, resolves them against the invocation
directory, runs `run_ompi_install(GET_OPENMPI, ompi_src)` with the
default version `"5.0.9"`, prints the resolved compiler and launcher,
runs `run_pormaps_install` (the second, shadowing definition), and
finally appends the environment-registration lines.  The constant
`POREMAPSTEST` (source line 40) is a parameter here exactly as in the
source: assigned once and never read afterwards.  The returned triple is
the outcome, the effect trace, and the lines appended to
`/poremaps/.bashrc`. -/
def mainScript (POREMAPSTEST GET_OPENMPI VERBOSE : Bool) (env : Env) (cwd : String) :
    Outcome Unit × List Effect × List String :=
  let setupEffs := [Effect.makedirs "poremaps_Krach2025", Effect.makedirs "OpenMPI"]
  let poremaps_src := cwd ++ "/poremaps_Krach2025"
  let ompi_src := cwd ++ "/OpenMPI"
  match run_ompi_install env GET_OPENMPI ompi_src "5.0.9" VERBOSE with
  | (Outcome.raised e, effs) => (Outcome.raised e, setupEffs ++ effs, [])
  | (Outcome.exited m, effs) => (Outcome.exited m, setupEffs ++ effs, [])
  | (Outcome.ok (comp, exec, ver), effs) =>
    let effs1 := setupEffs ++ effs ++ [Effect.printMsg (comp ++ " " ++ exec)]
    match run_pormaps_install env comp exec poremaps_src POREMAPS_GIT_URL with
    | (Outcome.exited m, beffs) => (Outcome.exited m, effs1 ++ beffs, [])
    | (Outcome.raised e, beffs) => (Outcome.raised e, effs1 ++ beffs, [])
    | (Outcome.ok _, beffs) =>
        (Outcome.ok (), effs1 ++ beffs, registerEnvironment GET_OPENMPI exec ompi_src ver)

/-- Splits a line at the first occurrence of the (nonempty) pattern
`pat`: `some (pre, suf)` with `line = pre ++ pat ++ suf` and `pat` not
occurring in any earlier position, or `none` when `pat` does not occur.
This is how `sed 's|PAT.*|…|'` locates the leftmost match of `PAT.*` in
a line: the match starts at the first occurrence of the literal `PAT`
and extends to the end of the line. -/
def splitFirst (pat : List Char) : List Char → Option (List Char × List Char)
  | [] => none
  | c :: rest =>
      if pat.isPrefixOf (c :: rest) then some ([], (c :: rest).drop pat.length)
      else
        match splitFirst pat rest with
        | some (pre, suf) => some (c :: pre, suf)
        | none => none

/-- The literal pattern of the sed substitution on source line 251. -/
def clinkerPat : List Char := "CLINKER=".data

/-- The effect of `sed -i 's|CLINKER=.*|CLINKER=<compilerPath>|' makefile`
on one line of the makefile: the leftmost match of `CLINKER=.*` — which
starts at the first occurrence of `CLINKER=` and runs to the end of the
line — is replaced by `CLINKER=<compilerPath>`; a line with no
occurrence is left unchanged.  (The script only ever substitutes
filesystem paths, which contain no sed metacharacters, so the
replacement text is the literal path.) -/
def sedClinkerLine (compilerPath : String) (line : List Char) : List Char :=
  match splitFirst clinkerPat line with
  | some (pre, _) => pre ++ clinkerPat ++ compilerPath.data
  | none => line

/-- The effect of the sed command of source line 251 on the whole
makefile, given as its list of lines. -/
def sedClinkerFile (compilerPath : String) (lines : List (List Char)) : List (List Char) :=
  lines.map (sedClinkerLine compilerPath)

/-! ## Concrete environment oracles used to instantiate the theorems -/

/-- Oracle of a fully healthy run: every path exists and is executable,
nothing raises, every shell command exits with status 0. -/
def envOkAll : Env :=
  { fs := { isFile := fun _ => true, isExecutable := fun _ => true },
    tryFault := none, cloneRaise := none, sysStatus := fun _ => 0 }

/-- Oracle of a run in which the try-guarded acquisition region of
`run_ompi_install` raises before performing any effect. -/
def envFault : Env :=
  { fs := { isFile := fun _ => true, isExecutable := fun _ => true },
    tryFault := some ("simulated download failure", []),
    cloneRaise := none, sysStatus := fun _ => 0 }

/-- Oracle of a run in which every shell command — the `git clone`
included — returns exit status 1 but nothing raises. -/
def envCloneFails : Env :=
  { fs := { isFile := fun _ => true, isExecutable := fun _ => true },
    tryFault := none, cloneRaise := none, sysStatus := fun _ => 1 }

/-- Oracle of a run in which the `os.system('git clone …')` invocation
itself raises. -/
def envCloneRaises : Env :=
  { fs := { isFile := fun _ => true, isExecutable := fun _ => true },
    tryFault := none, cloneRaise := some "boom", sysStatus := fun _ => 0 }

/-- A filesystem on which no path names an existing file. -/
def fsNone : FS := { isFile := fun _ => false, isExecutable := fun _ => false }

/-- A filesystem on which every path names an existing file but none is
executable. -/
def fsNotExec : FS := { isFile := fun _ => true, isExecutable := fun _ => false }

/-! ## Helper lemmas -/

/-- `splitFirst` finds a pattern placed at the head of the line and
keeps nothing before it. -/
theorem splitFirst_append (t : List Char) :
    splitFirst clinkerPat (clinkerPat ++ t) = some ([], t) := by
  have hp : clinkerPat.isPrefixOf ('C' :: ("LINKER=".data ++ t)) = true :=
    List.isPrefixOf_iff_prefix.mpr ⟨t, rfl⟩
  show splitFirst clinkerPat ('C' :: ("LINKER=".data ++ t)) = some ([], t)
  rw [splitFirst, if_pos hp]
  rfl

/-- When the pattern does not occur in the line, `splitFirst` finds
nothing. -/
theorem splitFirst_eq_none (pat : List Char) (l : List Char) (h : ¬ pat <:+: l) :
    splitFirst pat l = none := by
  induction l with
  | nil => rfl
  | cons c rest ih =>
      have h1 : pat.isPrefixOf (c :: rest) = false := by
        rw [Bool.eq_false_iff]
        intro hp
        exact h ((List.isPrefixOf_iff_prefix.mp hp).isInfix)
      have h2 : splitFirst pat rest = none :=
        ih (fun hi => h (hi.trans (List.suffix_cons c rest).isInfix))
      simp [splitFirst, h1, h2]

/-- A line without an occurrence of `CLINKER=` passes through the sed
substitution unchanged. -/
theorem sedClinkerLine_of_not_infix (path : String) (line : List Char)
    (h : ¬ clinkerPat <:+: line) : sedClinkerLine path line = line := by
  simp [sedClinkerLine, splitFirst_eq_none clinkerPat line h]

/-- A makefile with no occurrence of `CLINKER=` in any line passes
through the sed substitution unchanged. -/
theorem sedClinkerFile_of_no_infix (path : String) :
    ∀ lines : List (List Char), (∀ l ∈ lines, ¬ clinkerPat <:+: l) →
      sedClinkerFile path lines = lines
  | [], _ => rfl
  | a :: rest, h => by
      have h1 := sedClinkerLine_of_not_infix path a (h a (List.mem_cons_self a rest))
      have h2 := sedClinkerFile_of_no_infix path rest
        (fun l hl => h l (List.mem_cons_of_mem a hl))
      simp only [sedClinkerFile, List.map_cons] at h2 ⊢
      rw [h1, h2]

/-! ## The claims -/

/-- C2: for every path, `_ompi_sanity` terminates the process (via
`sys.exit`, exit status 1, descriptive message) when the path does not
name an existing file; separately terminates it, with a different
message, when the path exists but lacks execute permission; and returns
normally exactly when the path exists and is executable. -/
theorem ompi_sanity_spec (fs : FS) (p : String) :
    (fs.isFile p = false →
      «_ompi_sanity» fs p = SanityResult.exitWith
        ("ERROR: " ++ p ++ " does not exist\n error " ++ p ++ " does not exist"))
  ∧ (fs.isFile p = true → fs.isExecutable p = false →
      «_ompi_sanity» fs p = SanityResult.exitWith
        ("ERROR: " ++ p ++ " is not executable\n error " ++ p ++ " is not executable"))
  ∧ («_ompi_sanity» fs p = SanityResult.ok ↔
      (fs.isFile p = true ∧ fs.isExecutable p = true)) := by
  cases h1 : fs.isFile p <;> cases h2 : fs.isExecutable p <;>
    simp [«_ompi_sanity», h1, h2]

/-- Witness for C2: the three behaviours at concrete filesystems and the
concrete path `/x`. -/
theorem ompi_sanity_spec_witness :
    «_ompi_sanity» fsNone "/x" = SanityResult.exitWith
      ("ERROR: " ++ "/x" ++ " does not exist\n error " ++ "/x" ++ " does not exist")
  ∧ «_ompi_sanity» fsNotExec "/x" = SanityResult.exitWith
      ("ERROR: " ++ "/x" ++ " is not executable\n error " ++ "/x" ++ " is not executable")
  ∧ «_ompi_sanity» envOkAll.fs "/x" = SanityResult.ok :=
  ⟨(ompi_sanity_spec fsNone "/x").1 rfl,
   (ompi_sanity_spec fsNotExec "/x").2.1 rfl rfl,
   (ompi_sanity_spec envOkAll.fs "/x").2.2.mpr ⟨rfl, rfl⟩⟩

/-- C3: with `_GET_OMPI = False`, `run_ompi_install` returns the fixed
system paths `/usr/bin/mpiCC` and `/usr/bin/mpirun` and the requested
version string unchanged, and the call performs no filesystem or network
side effect (its only effect is a print to standard output). -/
theorem run_ompi_install_system_default (env : Env) (src version : String) (VERBOSE : Bool) :
    (run_ompi_install env false src version VERBOSE).1
      = Outcome.ok (sysCompiler, sysLauncher, version)
  ∧ ∀ eff ∈ (run_ompi_install env false src version VERBOSE).2,
      eff.isFsOrNetwork = false := by
  refine ⟨rfl, ?_⟩
  intro eff h
  simp only [run_ompi_install, if_neg (by simp : ¬ (false = true)), List.mem_singleton] at h
  subst h
  rfl

/-- Witness for C3 at a concrete environment, source directory and
version. -/
theorem run_ompi_install_system_default_witness :
    (run_ompi_install envOkAll false "/w/OpenMPI" "5.0.9" true).1
      = Outcome.ok (sysCompiler, sysLauncher, "5.0.9")
  ∧ Effect.isFsOrNetwork (Effect.printMsg fallbackNote) = false :=
  ⟨(run_ompi_install_system_default envOkAll "/w/OpenMPI" "5.0.9" true).1,
   (run_ompi_install_system_default envOkAll "/w/OpenMPI" "5.0.9" true).2
     (Effect.printMsg fallbackNote) (List.mem_singleton.mpr rfl)⟩

/-- C4: the environment-registration step always appends the single
virtual-environment activation line, and appends the PATH and
LD_LIBRARY_PATH lines if and only if `GET_OPENMPI` is true and the
resolved launcher differs from `/usr/bin/mpirun`; otherwise the
activation line is the only line appended. -/
theorem register_environment_lines (GET_OPENMPI : Bool)
    (ompi_exec ompi_src ompi_version : String) :
    (registerEnvironment GET_OPENMPI ompi_exec ompi_src ompi_version).head? = some activationLine
  ∧ (GET_OPENMPI = true ∧ ompi_exec ≠ sysLauncher →
      registerEnvironment GET_OPENMPI ompi_exec ompi_src ompi_version
        = [activationLine, pathLine ompi_src ompi_version, ldLine ompi_src ompi_version])
  ∧ (¬ (GET_OPENMPI = true ∧ ompi_exec ≠ sysLauncher) →
      registerEnvironment GET_OPENMPI ompi_exec ompi_src ompi_version = [activationLine]) := by
  cases GET_OPENMPI <;> by_cases he : ompi_exec = sysLauncher <;>
    simp [registerEnvironment, he]

/-- Witness for C4: with the system-default launcher only the activation
line is appended; with a source-build launcher path all three lines are
appended. -/
theorem register_environment_lines_witness :
    registerEnvironment true sysLauncher "/w/OpenMPI" "5.0.9" = [activationLine]
  ∧ registerEnvironment true "/w/OpenMPI/openmpi-5.0.9/build/bin/mpirun" "/w/OpenMPI" "5.0.9"
      = [activationLine, pathLine "/w/OpenMPI" "5.0.9", ldLine "/w/OpenMPI" "5.0.9"] :=
  ⟨(register_environment_lines true sysLauncher "/w/OpenMPI" "5.0.9").2.2 (by simp),
   (register_environment_lines true "/w/OpenMPI/openmpi-5.0.9/build/bin/mpirun"
      "/w/OpenMPI" "5.0.9").2.1 ⟨rfl, by decide⟩⟩

/-- C8: the script's behaviour is independent of `POREMAPSTEST`: two
runs of the top level that differ only in that flag produce the same
outcome, the same effect trace and the same appended lines.  The flag is
assigned on source line 40 and never read afterwards. -/
theorem poremapstest_never_read (t1 t2 GET_OPENMPI VERBOSE : Bool) (env : Env) (cwd : String) :
    mainScript t1 GET_OPENMPI VERBOSE env cwd = mainScript t2 GET_OPENMPI VERBOSE env cwd :=
  rfl

/-- C1: whenever the try-guarded acquisition region raises (any
exception message, any prefix of effects already performed), the
exception is caught, nothing propagates, and `run_ompi_install` returns
the fixed system fallback paths together with the requested version
string.  The length hypothesis keeps the URL construction — which sits
before the `try` — from raising first (see C9). -/
theorem run_ompi_install_fault_fallback (env : Env) (src version : String) (VERBOSE : Bool)
    (e : String) (effs : List Effect)
    (hfault : env.tryFault = some (e, effs)) (hlen : 3 ≤ version.length) :
    (run_ompi_install env true src version VERBOSE).1
      = Outcome.ok (sysCompiler, sysLauncher, version) := by
  have hlen' : 3 ≤ version.data.length := hlen
  obtain ⟨u, hu⟩ : ∃ u, buildOmpiUrl version = some u := by
    rcases hd : version.data with _ | ⟨a, _ | ⟨b, _ | ⟨c, t⟩⟩⟩
    · rw [hd] at hlen'; simp at hlen'
    · rw [hd] at hlen'; simp at hlen'
    · rw [hd] at hlen'
      simp only [List.length_cons, List.length_nil] at hlen'
      omega
    · exact ⟨"https://download.open-mpi.org/release/open-mpi/v" ++ String.singleton a ++ "."
        ++ String.singleton c ++ "/openmpi-" ++ version ++ ".tar.gz",
        by simp [buildOmpiUrl, hd]⟩
  simp [run_ompi_install, hu, hfault]

/-- Witness for C1 at a simulated download failure, source directory
`/w/OpenMPI` and the default version. -/
theorem run_ompi_install_fault_fallback_witness :
    (run_ompi_install envFault true "/w/OpenMPI" "5.0.9" true).1
      = Outcome.ok (sysCompiler, sysLauncher, "5.0.9") :=
  run_ompi_install_fault_fallback envFault "/w/OpenMPI" "5.0.9" true
    "simulated download failure" [] rfl (by decide)

/-- C9: with `_GET_OMPI` true and a version string of fewer than three
characters, `run_ompi_install` raises an uncaught `IndexError` during
URL construction — the f-string indexing `ompi_version[0]` and
`ompi_version[2]` sits before the `try` block — instead of falling back
to the system paths; the only effect performed is the initial directory
change. -/
theorem run_ompi_install_short_version_raises (env : Env) (src version : String)
    (VERBOSE : Bool) (h : version.length < 3) :
    run_ompi_install env true src version VERBOSE
      = (Outcome.raised "IndexError: string index out of range", [Effect.chdir src]) := by
  have h' : version.data.length < 3 := h
  have hurl : buildOmpiUrl version = none := by
    rcases hd : version.data with _ | ⟨a, _ | ⟨b, _ | ⟨c, t⟩⟩⟩
    · simp [buildOmpiUrl, hd]
    · simp [buildOmpiUrl, hd]
    · simp [buildOmpiUrl, hd]
    · rw [hd] at h'
      simp only [List.length_cons, List.length_nil] at h'
      omega
  simp [run_ompi_install, hurl]

/-- Witness for C9 at the one-character version string `"5"`. -/
theorem run_ompi_install_short_version_raises_witness :
    run_ompi_install envOkAll true "/w/OpenMPI" "5" true
      = (Outcome.raised "IndexError: string index out of range", [Effect.chdir "/w/OpenMPI"]) :=
  run_ompi_install_short_version_raises envOkAll "/w/OpenMPI" "5" true (by decide)

/-- C7: when the `git clone` invocation returns an exit status — even a
nonzero one — instead of raising, the except handler of
`run_pormaps_install` never runs: the function does not exit through the
cloning-error branch but proceeds into `poremaps/src`, runs the sed
substitution and runs `make`, completing normally. -/
theorem clone_failure_branch_unreachable (env : Env) (comp exec src url : String)
    (hR : env.cloneRaise = none)
    (hC : «_ompi_sanity» env.fs comp = SanityResult.ok)
    (hE : «_ompi_sanity» env.fs exec = SanityResult.ok)
    (_hS : env.sysStatus (cloneCmd url) ≠ 0) :
    run_pormaps_install env comp exec src url
      = (Outcome.ok (),
         [Effect.chdir src,
          Effect.osSystem (cloneCmd url) (env.sysStatus (cloneCmd url)),
          Effect.chdir "poremaps/src",
          Effect.osSystem (sedCmd comp) (env.sysStatus (sedCmd comp)),
          Effect.osSystem "make" (env.sysStatus "make")]) := by
  simp [run_pormaps_install, hC, hE, hR]

/-- Witness for C7: with every shell command returning exit status 1,
the install still runs to completion past the failed clone. -/
theorem clone_failure_branch_unreachable_witness :
    run_pormaps_install envCloneFails "/usr/bin/mpiCC" "/usr/bin/mpirun"
        "/w/poremaps_Krach2025" POREMAPS_GIT_URL
      = (Outcome.ok (),
         [Effect.chdir "/w/poremaps_Krach2025",
          Effect.osSystem (cloneCmd POREMAPS_GIT_URL) 1,
          Effect.chdir "poremaps/src",
          Effect.osSystem (sedCmd "/usr/bin/mpiCC") 1,
          Effect.osSystem "make" 1]) :=
  clone_failure_branch_unreachable envCloneFails "/usr/bin/mpiCC" "/usr/bin/mpirun"
    "/w/poremaps_Krach2025" POREMAPS_GIT_URL rfl rfl rfl (by decide)

/-- C10 counterexample: the two textual definitions of
`run_pormaps_install` are NOT behaviourally equivalent on every run —
on a run where the clone invocation raises, they exit with differently
worded messages (`cloning … error->` versus `Cloning … Error:`), so
which definition is bound is observable. -/
theorem run_pormaps_install_defs_differ :
    run_pormaps_install_v1 envCloneRaises "/usr/bin/mpiCC" "/usr/bin/mpirun"
        "/w/poremaps_Krach2025" POREMAPS_GIT_URL
      ≠ run_pormaps_install envCloneRaises "/usr/bin/mpiCC" "/usr/bin/mpirun"
        "/w/poremaps_Krach2025" POREMAPS_GIT_URL := by
  decide

/-- C10 amended: on every run in which the clone invocation returns
(that is, does not raise — in particular on every run where it merely
reports a nonzero exit status), the two textual definitions of
`run_pormaps_install` agree exactly: same validation of both toolchain
paths, same directory changes, same clone, same CLINKER substitution,
same `make`, same outcome. -/
theorem run_pormaps_install_defs_agree (env : Env) (comp exec src url : String)
    (h : env.cloneRaise = none) :
    run_pormaps_install_v1 env comp exec src url
      = run_pormaps_install env comp exec src url := by
  rcases hc : «_ompi_sanity» env.fs comp with m | _ <;>
    rcases he : «_ompi_sanity» env.fs exec with m2 | _ <;>
    simp [run_pormaps_install_v1, run_pormaps_install, hc, he, h]

/-- Witness for the amended C10 at a healthy concrete run. -/
theorem run_pormaps_install_defs_agree_witness :
    run_pormaps_install_v1 envOkAll "/usr/bin/mpiCC" "/usr/bin/mpirun"
        "/w/poremaps_Krach2025" POREMAPS_GIT_URL
      = run_pormaps_install envOkAll "/usr/bin/mpiCC" "/usr/bin/mpirun"
        "/w/poremaps_Krach2025" POREMAPS_GIT_URL :=
  run_pormaps_install_defs_agree envOkAll "/usr/bin/mpiCC" "/usr/bin/mpirun"
    "/w/poremaps_Krach2025" POREMAPS_GIT_URL rfl

/-- C5 counterexample: the sed pattern `CLINKER=.*` is not anchored at
the start of the line, so the substitution does NOT leave every line
that fails to begin with `CLINKER=` byte-identical: the comment line
`#CLINKER=gcc` does not begin with `CLINKER=` yet is rewritten to
`#CLINKER=/usr/bin/mpiCC`, and the one-line file consisting of it — a
file with no line beginning with `CLINKER=` — is changed. -/
theorem sed_clinker_not_anchored :
    (¬ clinkerPat <+: "#CLINKER=gcc".data)
  ∧ sedClinkerFile "/usr/bin/mpiCC" ["#CLINKER=gcc".data]
      = ["#CLINKER=/usr/bin/mpiCC".data]
  ∧ sedClinkerFile "/usr/bin/mpiCC" ["#CLINKER=gcc".data]
      ≠ ["#CLINKER=gcc".data] := by
  refine ⟨by decide, by decide, by decide⟩

/-- C5 amended: the substitution rewrites each line at the first
occurrence of the substring `CLINKER=` — so a line beginning with
`CLINKER=` becomes exactly `CLINKER=<compilerPath>` — leaves every line
not containing the substring byte-identical, and leaves a file none of
whose lines contain the substring entirely unchanged. -/
theorem sed_clinker_spec (path : String) (line : List Char) (lines : List (List Char)) :
    (clinkerPat <+: line → sedClinkerLine path line = clinkerPat ++ path.data)
  ∧ (¬ clinkerPat <:+: line → sedClinkerLine path line = line)
  ∧ ((∀ l ∈ lines, ¬ clinkerPat <:+: l) → sedClinkerFile path lines = lines) := by
  refine ⟨?_, sedClinkerLine_of_not_infix path line, sedClinkerFile_of_no_infix path lines⟩
  rintro ⟨t, rfl⟩
  simp [sedClinkerLine, splitFirst_append t]

/-- Witness for the amended C5: a line beginning with `CLINKER=` is
rewritten to the new assignment, and a two-line file without the
substring is untouched. -/
theorem sed_clinker_spec_witness :
    sedClinkerLine "/usr/bin/mpiCC" ("CLINKER=gcc".data) = "CLINKER=/usr/bin/mpiCC".data
  ∧ sedClinkerFile "/usr/bin/mpiCC" ["CC=gcc".data, "all: poremaps".data]
      = ["CC=gcc".data, "all: poremaps".data] :=
  ⟨by
    have h := (sed_clinker_spec "/usr/bin/mpiCC" ("CLINKER=gcc".data) []).1 (by decide)
    exact h,
   (sed_clinker_spec "/usr/bin/mpiCC" [] ["CC=gcc".data, "all: poremaps".data]).2.2
     (by decide)⟩

/-- C6: for a version string `X.Y.Z` with single-character components,
the download URL built on source line 103 is exactly
`https://download.open-mpi.org/release/open-mpi/v<version[0]>.<version[2]>/openmpi-<version>.tar.gz`
— the first character and the zero-indexed third character of the
version string form the release-path segment — and with the source
build requested and no acquisition fault, `run_ompi_install` downloads
exactly that URL. -/
theorem ompi_url_uses_chars_0_and_2 (x y z : Char) (env : Env) (src : String)
    (VERBOSE : Bool) (h : env.tryFault = none) :
    buildOmpiUrl (String.mk [x, '.', y, '.', z])
      = some ("https://download.open-mpi.org/release/open-mpi/v" ++ String.singleton x ++ "."
          ++ String.singleton y ++ "/openmpi-" ++ String.mk [x, '.', y, '.', z] ++ ".tar.gz")
  ∧ Effect.download ("https://download.open-mpi.org/release/open-mpi/v" ++ String.singleton x
        ++ "." ++ String.singleton y ++ "/openmpi-" ++ String.mk [x, '.', y, '.', z] ++ ".tar.gz")
      ∈ (run_ompi_install env true src (String.mk [x, '.', y, '.', z]) VERBOSE).2 := by
  refine ⟨rfl, ?_⟩
  unfold run_ompi_install
  rw [h]
  show Effect.download _ ∈ [Effect.chdir src] ++
    [Effect.printMsg _, Effect.download _, Effect.printMsg _, Effect.extractTar,
     Effect.chdir _, Effect.makedirs _, Effect.chdir _, Effect.printMsg _,
     Effect.osSystem _ _, Effect.printMsg _, Effect.osSystem _ _]
  simp

/-- Witness for C6 at the default version `"5.0.9"`. -/
theorem ompi_url_uses_chars_0_and_2_witness :
    buildOmpiUrl "5.0.9"
      = some "https://download.open-mpi.org/release/open-mpi/v5.0/openmpi-5.0.9.tar.gz"
  ∧ Effect.download "https://download.open-mpi.org/release/open-mpi/v5.0/openmpi-5.0.9.tar.gz"
      ∈ (run_ompi_install envOkAll true "/w/OpenMPI" "5.0.9" true).2 :=
  ompi_url_uses_chars_0_and_2 '5' '0' '9' envOkAll "/w/OpenMPI" true rfl

end Krach2025
